import Mathlib

/-!
Verification of the plugin-driven node-synthesis engine of the Nx build
orchestrator against its natural-language specification.

The development shallowly embeds three parts of the repository:

1. the Gradle node synthesizer (`@nx/gradle` `createNodesV2`), whose
   implementation file is not part of the provided sources; it is modelled
   from the specification (section 4.5) and validated against the inline
   snapshots of `packages/gradle/src/plugin/nodes.spec.ts`;
2. the plugin internal API
   (`packages/nx/src/project-graph/plugins/internal-api.ts`):
   the `LoadedNxPlugin` adapter, `normalizePlugins`, `getDefaultPlugins`
   and `loadNxPlugins`;
3. the prompt-message selection logic (`PromptMessages.getPrompt`).

JavaScript promises are embedded as `Except` values (a resolved promise is
`Except.ok`, a rejected one `Except.error`); JavaScript objects used as
ordered string-keyed maps are embedded as association lists.
-/

set_option autoImplicit false
set_option maxRecDepth 100000

/-! ### Part 1: Gradle node synthesizer (modelled from the spec) -/

/-- Dependency entry of a target: either a bare target name resolved in the
same project, or a structured reference
`\x7bprojects, target, params\x7d` for cross-project/self fan-out
(spec section 3, TargetDefinition). -/
inductive TargetDependency where
  | simple (target : String)
  | structured (projects : String) (target : String) (params : String)
deriving DecidableEq

/-- Metadata attached to a synthesized target (spec section 3:
free-form metadata including a human-readable description; the Gradle
umbrella target additionally records `nonAtomizedTarget`). -/
structure GradleTargetMetadata where
  description : Option String
  nonAtomizedTarget : Option String
  technologies : List String
deriving DecidableEq

/-- A synthesized Gradle target (spec section 3, TargetDefinition):
`command` or `executor` identifier, ordered `dependsOn`, ordered `inputs`,
a `cache` flag and metadata. -/
structure GradleTarget where
  command : Option String
  executor : Option String
  dependsOn : List TargetDependency
  inputs : List String
  cache : Bool
  metadata : GradleTargetMetadata
deriving DecidableEq

/-- Project-level metadata: target-group mapping from category name to
ordered list of target names, plus a technologies list (spec section 3,
NodeResult). -/
structure GradleProjectMetadata where
  targetGroups : List (String × List String)
  technologies : List String
deriving DecidableEq

/-- One project definition contributed for a matched build file:
`name`, `targets` (insertion-ordered map from target name to target
definition) and metadata (spec section 3, NodeResult). -/
structure GradleProjectNode where
  name : String
  metadata : GradleProjectMetadata
  targets : List (String × GradleTarget)
deriving DecidableEq

/-- Options accepted by the Gradle plugin in
`packages/gradle/src/plugin/nodes.spec.ts`: a `buildTargetName` and an
optional `ciTargetName` enabling atomization. `buildTargetName` does not
affect the `test` task synthesis exercised by the claims. -/
structure GradlePluginOptions where
  buildTargetName : Option String
  ciTargetName : Option String
deriving DecidableEq

/-- The Gradle report produced once per run by the external
`get-gradle-report` utility, as mocked in
`packages/gradle/src/plugin/nodes.spec.ts` (association lists stand for
the `Map` values). -/
structure GradleReport where
  gradleFileToGradleProjectMap : List (String × String)
  buildFileToDepsMap : List (String × String)
  gradleFileToOutputDirsMap : List (String × List (String × String))
  gradleProjectToTasksTypeMap : List (String × List (String × String))
  gradleProjectToProjectName : List (String × String)

/-- Base names recognized as Gradle build files, from the
`GRADLE_BUILD_FILES` set mocked in
`packages/gradle/src/plugin/nodes.spec.ts`. -/
def GRADLE_BUILD_FILES : List String := ["build.gradle", "build.gradle.kts"]

/-- Splitting a character list at a separator character (auxiliary for
path and extension handling; structural so that proofs can evaluate it). -/
def splitCharsAux (sep : Char) : List Char → List Char → List (List Char)
  | [], acc => [acc.reverse]
  | c :: cs, acc =>
    if c == sep then acc.reverse :: splitCharsAux sep cs []
    else splitCharsAux sep cs (c :: acc)

/-- Splitting a string at every occurrence of a separator character. -/
def splitOnChar (sep : Char) (s : String) : List String :=
  (splitCharsAux sep s.data []).map String.mk

/-- Joining path segments with `/`. -/
def joinSegs : List String → String
  | [] => ""
  | [s] => s
  | s :: rest => s ++ "/" ++ joinSegs rest

/-- Whether the first character list is an initial segment of the
second. -/
def charsLeadWith : List Char → List Char → Bool
  | [], _ => true
  | _ :: _, [] => false
  | p :: ps, c :: cs => p == c && charsLeadWith ps cs

/-- Whether string `s` starts with `p` (the embedding of
`String.startsWith`). -/
def strStartsWith (s p : String) : Bool := charsLeadWith p.data s.data

/-- Last path segment of a `/`-separated path. -/
def basenameOf (file : String) : String := (splitOnChar '/' file).getLastD ""

/-- Containing directory of a `/`-separated path (spec section 4.5: the
project root is the build file's containing directory). -/
def dirnameOf (file : String) : String :=
  joinSegs (splitOnChar '/' file).dropLast

/-- Whether a file is a Gradle build file (its base name belongs to
`GRADLE_BUILD_FILES`). -/
def isGradleBuildFile (file : String) : Bool :=
  GRADLE_BUILD_FILES.contains (basenameOf file)

/-- Modelled from the spec (section 4.5): the test-class identifier derived
from a test source file's name — the file name without extension
(`.../test/test1.java` gives `test1`). -/
def classNameOf (file : String) : String :=
  (splitOnChar '.' (basenameOf file)).headD ""

/-- Modelled from the spec (section 4.5): strict root-prefix matching —
the test source files lying within the project's own directory subtree.
Files belonging to a different project, even if lexically nested under a
shared ancestor path, are excluded. -/
def qualifiedTestFiles (projectRoot : String) (testFiles : List String) :
    List String :=
  testFiles.filter (fun f => strStartsWith f (projectRoot ++ "/"))

/-- Modelled from the spec (section 4.5): the fixed `inputs` of every
synthesized Gradle target, matching the snapshot values in
`packages/gradle/src/plugin/nodes.spec.ts`. -/
def gradleInputs : List String := ["default", "^production"]

/-- Modelled from the spec (section 4.5): targets and target-group entry
synthesized for one declared task of a Gradle project.  The base target is
`./gradlew <project>:<task>` with `dependsOn = ["classes"]` and
`cache = true`.  When the task type is `Test`, a CI target name is
configured and at least one qualifying test source file exists, one
atomized target per qualifying file and one umbrella target are added, the
base target's `cache` flips to `false`, and the target-group entry lists
the atomized names, the umbrella name, then the base name; otherwise only
the base target is emitted and the group entry is just the base name. -/
def gradleTaskTargets (gradleProject projectRoot taskName taskType : String)
    (ciTargetName : Option String) (testFiles : List String) :
    List (String × GradleTarget) × (String × List String) :=
  let baseCommand := "./gradlew " ++ gradleProject ++ ":" ++ taskName
  let mkBase : Bool → String × GradleTarget := fun cacheFlag =>
    (taskName,
      { command := some baseCommand
        executor := none
        dependsOn := [.simple "classes"]
        inputs := gradleInputs
        cache := cacheFlag
        metadata :=
          { description := none
            nonAtomizedTarget := none
            technologies := ["gradle"] } })
  let qualified := qualifiedTestFiles projectRoot testFiles
  match ciTargetName with
  | some ci =>
    if taskType == "Test" && !qualified.isEmpty then
      let atomized : List (String × GradleTarget) :=
        qualified.map (fun f =>
          (ci ++ "--" ++ classNameOf f,
            { command := some (baseCommand ++ " --tests " ++ classNameOf f)
              executor := none
              dependsOn := [.simple "classes"]
              inputs := gradleInputs
              cache := true
              metadata :=
                { description := some ("Runs Gradle test " ++ f ++ " in CI")
                  nonAtomizedTarget := none
                  technologies := ["gradle"] } }))
      let umbrella : String × GradleTarget :=
        (ci,
          { command := none
            executor := some "nx:noop"
            dependsOn :=
              atomized.map (fun t => .structured "self" t.1 "forward")
            inputs := gradleInputs
            cache := true
            metadata :=
              { description := some "Runs Gradle Tests in CI"
                nonAtomizedTarget := some taskName
                technologies := ["gradle"] } })
      (atomized ++ [umbrella, mkBase false],
        (taskType, atomized.map (·.1) ++ [ci, taskName]))
    else
      ([mkBase true], (taskType, [taskName]))
  | none => ([mkBase true], (taskType, [taskName]))

/-- Modelled from the spec (section 4.5): per matched build file, resolve
the owning logical project (project name, project root = the file's
containing directory, used as the unique key) and synthesize one target
set per declared task of that project. -/
def gradleNodesForBuildFile (report : GradleReport)
    (opts : GradlePluginOptions) (testFiles : List String)
    (buildFile : String) : Option (String × GradleProjectNode) :=
  match (report.gradleFileToGradleProjectMap).lookup buildFile with
  | none => none
  | some gradleProject =>
    let projectRoot := dirnameOf buildFile
    let projectName :=
      ((report.gradleProjectToProjectName).lookup gradleProject).getD
        gradleProject
    let tasks :=
      ((report.gradleProjectToTasksTypeMap).lookup gradleProject).getD []
    let perTask := tasks.map (fun t =>
      gradleTaskTargets gradleProject projectRoot t.1 t.2 opts.ciTargetName
        testFiles)
    some (projectRoot,
      { name := projectName
        metadata :=
          { targetGroups := perTask.map (·.2)
            technologies := ["gradle"] }
        targets := (perTask.map (·.1)).flatten })

/-- Modelled from the spec (sections 4.4-4.5): the Gradle `createNodesV2`
batched function.  The matched files are split into Gradle build files and
candidate test source files; each build file with a known owning Gradle
project yields one result entry pairing the file with its single project
definition. -/
def gradleCreateNodesV2 (files : List String) (opts : GradlePluginOptions)
    (report : GradleReport) :
    List (String × List (String × GradleProjectNode)) :=
  let testFiles := files.filter (fun f => !isGradleBuildFile f)
  let buildFiles := files.filter (fun f => isGradleBuildFile f)
  buildFiles.filterMap (fun f =>
    (gradleNodesForBuildFile report opts testFiles f).map
      (fun p => (f, [p])))

/-- Projects contributed for one matched file in a Gradle result. -/
def gradleProjectIn
    (results : List (String × List (String × GradleProjectNode)))
    (file projectRoot : String) : Option GradleProjectNode :=
  (results.lookup file).bind (fun projects => projects.lookup projectRoot)

/-- Target of a given name in a given project of a Gradle result. -/
def gradleTargetIn
    (results : List (String × List (String × GradleProjectNode)))
    (file projectRoot targetName : String) : Option GradleTarget :=
  (gradleProjectIn results file projectRoot).bind
    (fun node => node.targets.lookup targetName)

/-- The Gradle report of the atomization scenario of
`packages/gradle/src/plugin/nodes.spec.ts` (nested project root, task
`test` of type `Test`). -/
def nestedTestReport : GradleReport :=
  { gradleFileToGradleProjectMap := [("nested/nested/proj/build.gradle", "proj")]
    buildFileToDepsMap := []
    gradleFileToOutputDirsMap :=
      [("nested/nested/proj/build.gradle", [("build", "build")])]
    gradleProjectToTasksTypeMap := [("proj", [("test", "Test")])]
    gradleProjectToProjectName := [("proj", "proj")] }

/-- The Gradle report of the non-atomized scenario of
`packages/gradle/src/plugin/nodes.spec.ts` (task `test` of type
`Verification`). -/
def simpleReport : GradleReport :=
  { gradleFileToGradleProjectMap := [("proj/build.gradle", "proj")]
    buildFileToDepsMap := []
    gradleFileToOutputDirsMap := [("proj/build.gradle", [("build", "build")])]
    gradleProjectToTasksTypeMap := [("proj", [("test", "Verification")])]
    gradleProjectToProjectName := [("proj", "proj")] }

/-- The matched-file list of the atomization scenario: the nested build
file, one test file belonging to a different project, and two test files
inside the nested project's own subtree. -/
def nestedTestFiles : List String :=
  ["nested/nested/proj/build.gradle",
   "proj/src/test/java/test/rootTest.java",
   "nested/nested/proj/src/test/java/test/test.java",
   "nested/nested/proj/src/test/java/test/test1.java"]

/-- The Gradle result of the atomization scenario. -/
def nestedTestResult : List (String × List (String × GradleProjectNode)) :=
  gradleCreateNodesV2 nestedTestFiles
    { buildTargetName := some "build", ciTargetName := some "test-ci" }
    nestedTestReport

/-- The Gradle result of the non-atomized scenario. -/
def simpleResult : List (String × List (String × GradleProjectNode)) :=
  gradleCreateNodesV2 ["proj/build.gradle"]
    { buildTargetName := some "build", ciTargetName := none }
    simpleReport

/-- A target value used in proofs about the atomization scenario: the
atomized target for `test.java`. -/
def atomizedTestTarget : GradleTarget :=
  { command := some "./gradlew proj:test --tests test"
    executor := none
    dependsOn := [.simple "classes"]
    inputs := ["default", "^production"]
    cache := true
    metadata :=
      { description :=
          some "Runs Gradle test nested/nested/proj/src/test/java/test/test.java in CI"
        nonAtomizedTarget := none
        technologies := ["gradle"] } }

/-- C1: Gradle atomization.  For the build file whose project has a task
`test` of type `Test`, with `ciTargetName = "test-ci"` configured and two
test source files `test.java` and `test1.java` inside the project's own
subtree, the createNodesV2 result for that project contains a base target
`test` with `cache:false`, atomized targets `test-ci--test` and
`test-ci--test1` each with `cache:true` and command
`./gradlew proj:test --tests <className>`, and an umbrella target
`test-ci` with executor `nx:noop`, `cache:true`, `dependsOn` equal to the
ordered list of self-references (one per atomized target, in discovery
order) and metadata `nonAtomizedTarget = "test"`; the target-group for
the `Test` category is exactly
`["test-ci--test", "test-ci--test1", "test-ci", "test"]`. -/
theorem gradle_atomization_result :
    gradleTargetIn nestedTestResult "nested/nested/proj/build.gradle"
        "nested/nested/proj" "test" =
      some
        { command := some "./gradlew proj:test"
          executor := none
          dependsOn := [.simple "classes"]
          inputs := ["default", "^production"]
          cache := false
          metadata :=
            { description := none
              nonAtomizedTarget := none
              technologies := ["gradle"] } } ∧
    gradleTargetIn nestedTestResult "nested/nested/proj/build.gradle"
        "nested/nested/proj" "test-ci--test" = some atomizedTestTarget ∧
    gradleTargetIn nestedTestResult "nested/nested/proj/build.gradle"
        "nested/nested/proj" "test-ci--test1" =
      some
        { command := some "./gradlew proj:test --tests test1"
          executor := none
          dependsOn := [.simple "classes"]
          inputs := ["default", "^production"]
          cache := true
          metadata :=
            { description :=
                some "Runs Gradle test nested/nested/proj/src/test/java/test/test1.java in CI"
              nonAtomizedTarget := none
              technologies := ["gradle"] } } ∧
    gradleTargetIn nestedTestResult "nested/nested/proj/build.gradle"
        "nested/nested/proj" "test-ci" =
      some
        { command := none
          executor := some "nx:noop"
          dependsOn :=
            [.structured "self" "test-ci--test" "forward",
             .structured "self" "test-ci--test1" "forward"]
          inputs := ["default", "^production"]
          cache := true
          metadata :=
            { description := some "Runs Gradle Tests in CI"
              nonAtomizedTarget := some "test"
              technologies := ["gradle"] } } ∧
    (gradleProjectIn nestedTestResult "nested/nested/proj/build.gradle"
        "nested/nested/proj").map (fun n => n.metadata.targetGroups) =
      some [("Test", ["test-ci--test", "test-ci--test1", "test-ci", "test"])] := by
  decide

/-- C7: Gradle non-atomized case.  For a build file whose project has a
task `test` (of type `Verification`) when no `ciTargetName` is configured,
only the base target `test` is emitted, with `cache:true`, command
`./gradlew proj:test` and `dependsOn = ["classes"]`, and the target-group
entry for the task-type category is exactly `["test"]`; no atomized or
umbrella targets are produced. -/
theorem gradle_non_atomized_result :
    gradleTargetIn simpleResult "proj/build.gradle" "proj" "test" =
      some
        { command := some "./gradlew proj:test"
          executor := none
          dependsOn := [.simple "classes"]
          inputs := ["default", "^production"]
          cache := true
          metadata :=
            { description := none
              nonAtomizedTarget := none
              technologies := ["gradle"] } } ∧
    (gradleProjectIn simpleResult "proj/build.gradle" "proj").map
        (fun n => n.targets.map (·.1)) = some ["test"] ∧
    (gradleProjectIn simpleResult "proj/build.gradle" "proj").map
        (fun n => n.metadata.targetGroups) =
      some [("Verification", ["test"])] := by
  decide

/-- C4: strict root-prefix exclusion in atomization.  Every target
synthesized for a `Test`-type task with a configured CI target name is
the base target, the umbrella target, or an atomized target derived from
a test source file lying within the owning project's own directory
subtree under strict root-prefix matching; concretely, in the nested
scenario the outside file `proj/src/test/java/test/rootTest.java` yields
no atomized target `test-ci--rootTest` for project `nested/nested/proj`. -/
theorem gradle_root_prefix_exclusion
    (gradleProject projectRoot taskName ci : String)
    (testFiles : List String) (name : String) (t : GradleTarget)
    (hmem : (name, t) ∈
      (gradleTaskTargets gradleProject projectRoot taskName "Test" (some ci)
        testFiles).1) :
    (name = taskName ∨ name = ci ∨
      ∃ f, f ∈ testFiles ∧ strStartsWith f (projectRoot ++ "/") = true ∧
        name = ci ++ "--" ++ classNameOf f) ∧
    gradleTargetIn nestedTestResult "nested/nested/proj/build.gradle"
      "nested/nested/proj" "test-ci--rootTest" = none := by
  refine ⟨?_, by decide⟩
  simp only [gradleTaskTargets] at hmem
  by_cases hq :
      (qualifiedTestFiles projectRoot testFiles).isEmpty = true
  · simp [hq] at hmem
    exact Or.inl hmem.1
  · simp [hq, List.mem_append] at hmem
    rcases hmem with ⟨f, hf, hname, -⟩ | ⟨hname, -⟩ | ⟨hname, -⟩
    · have hf' : f ∈ testFiles ∧ strStartsWith f (projectRoot ++ "/") = true := by
        simpa [qualifiedTestFiles, List.mem_filter] using hf
      exact Or.inr (Or.inr ⟨f, hf'.1, hf'.2, hname.symm⟩)
    · exact Or.inr (Or.inl hname)
    · exact Or.inl hname

/-- Witness for `gradle_root_prefix_exclusion` at the concrete atomization
scenario: the atomized target `test-ci--test` is classified as derived
from a qualifying in-subtree file. -/
theorem gradle_root_prefix_exclusion_witness :
    ("test-ci--test" = "test" ∨ "test-ci--test" = "test-ci" ∨
      ∃ f, f ∈ ["proj/src/test/java/test/rootTest.java",
                "nested/nested/proj/src/test/java/test/test.java",
                "nested/nested/proj/src/test/java/test/test1.java"] ∧
        strStartsWith f ("nested/nested/proj" ++ "/") = true ∧
        "test-ci--test" = "test-ci" ++ "--" ++ classNameOf f) ∧
    gradleTargetIn nestedTestResult "nested/nested/proj/build.gradle"
      "nested/nested/proj" "test-ci--rootTest" = none :=
  gradle_root_prefix_exclusion "proj" "nested/nested/proj" "test" "test-ci"
    ["proj/src/test/java/test/rootTest.java",
     "nested/nested/proj/src/test/java/test/test.java",
     "nested/nested/proj/src/test/java/test/test1.java"]
    "test-ci--test" atomizedTestTarget (by decide)

/-! ### Part 2: plugin internal API
(`packages/nx/src/project-graph/plugins/internal-api.ts`) -/

/-- A JavaScript error value reaching the adapter boundary: either a plain
error (identified by its message) or an `AggregateCreateNodesError` from
`error-types.ts` carrying per-file errors (file name or `null`, paired
with the underlying error) and partial per-file results.  `R` is the
(opaque) `CreateNodesResult` type. -/
inductive JsError (R : Type) where
  | plain (message : String)
  | aggregate (errors : List (Option String × String))
      (partialResults : List (String × R))
deriving DecidableEq

/-- The embedding of `isAggregateCreateNodesError` from `error-types.ts`:
an `instanceof AggregateCreateNodesError` check. -/
def isAggregateCreateNodesError {R : Type} : JsError R → Bool
  | .aggregate _ _ => true
  | .plain _ => false

/-- A raw plugin shape as consumed by the `LoadedNxPlugin` constructor
(`NormalizedPlugin = NxPluginV2 & Pick<NxPluginV1, 'processProjectGraph'>`,
internal-api.ts lines 135-136), restricted to the fields the constructor
reads for the node-creation capability.  `createNodes` is the legacy
single-file hook `[pattern, (file, options, context) => result]`;
`createNodesV2` is the batched hook
`[pattern, (files, options, context) => [file, result][]]`.  `O` is the
plugin-options type and `C` the `CreateNodesContextV2` type, both opaque
to the adapter.  Asynchrony and exceptions are embedded as `Except`. -/
structure NormalizedPlugin (R O C : Type) where
  name : String
  createNodes : Option (String × (String → O → C → Except String R))
  createNodesV2 :
    Option (String × (List String → O → C → Except (JsError R) (List (String × R))))

/-- Modelled from the spec (sections 3 and 4.3): the external per-file
fan-out utility `createNodesFromFiles` (from
`packages/nx/src/project-graph/plugins/utils.ts`, not among the provided
sources).  It invokes the single-file hook once per matched file; every
file whose invocation succeeds yields independently an entry `(file,
result)` in input order; if any invocation throws, the whole call throws
an aggregate error carrying the per-file errors and the successful
partial results. -/
def createNodesFromFiles {R O C : Type}
    (f : String → O → C → Except String R) (configFiles : List String)
    (options : O) (context : C) :
    Except (JsError R) (List (String × R)) :=
  let results := configFiles.filterMap (fun file =>
    match f file options context with
    | .ok v => some (file, v)
    | .error _ => none)
  let errors := configFiles.filterMap (fun file =>
    match f file options context with
    | .error e => some (some file, e)
    | .ok _ => none)
  if errors.isEmpty then .ok results
  else .error (.aggregate errors results)

/-- The node-creation capability assembled by the `LoadedNxPlugin`
constructor before error containment (internal-api.ts lines 66-91): when
only the legacy hook is present it is normalized through
`createNodesFromFiles`, and when the batched `createNodesV2` hook is
present it is wrapped directly (superseding the legacy hook); in both
cases every returned entry is tagged with the plugin's name. -/
def rawCreateNodes {R O C : Type} (plugin : NormalizedPlugin R O C)
    (options : O) :
    Option (String × (List String → C →
      Except (JsError R) (List (String × String × R)))) :=
  let fromLegacy :=
    match plugin.createNodes, plugin.createNodesV2 with
    | some (pat, f), none =>
      some (pat, fun configFiles context =>
        (createNodesFromFiles f configFiles options context).map
          (fun results => results.map (fun r => (plugin.name, r.1, r.2))))
    | _, _ => none
  match plugin.createNodesV2 with
  | some (pat, f) =>
    some (pat, fun configFiles context =>
      (f configFiles options context).map
        (fun result => result.map (fun r => (plugin.name, r.1, r.2))))
  | none => fromLegacy

/-- The error-containment wrapper installed around the uniform batched
function (internal-api.ts lines 93-114, timing instrumentation elided):
a thrown error that already is an `AggregateCreateNodesError` is re-thrown
unchanged; any other thrown error `e` is re-thrown as
`AggregateCreateNodesError([[null, e]], [])`. -/
def wrapCreateNodes {R C A : Type}
    (inner : List String → C → Except (JsError R) A) :
    List String → C → Except (JsError R) A :=
  fun configFiles context =>
    match inner configFiles context with
    | .ok v => .ok v
    | .error e =>
      match e with
      | .aggregate errs results => .error (.aggregate errs results)
      | .plain m => .error (.aggregate [(none, m)] [])

/-- The adapter handle produced by the `LoadedNxPlugin` constructor,
restricted to the fields the claims are about (`createDependencies`,
`createMetadata` and `processProjectGraph` are independent pass-throughs
and are elided). -/
structure LoadedNxPlugin (R O C : Type) where
  name : String
  options : O
  createNodes :
    Option (String × (List String → C →
      Except (JsError R) (List (String × String × R))))

/-- The `LoadedNxPlugin` constructor (internal-api.ts lines 58-127): the
node-creation capability is assembled by `rawCreateNodes` and then wrapped
with error containment by `wrapCreateNodes`. -/
def mkLoadedNxPlugin {R O C : Type} (plugin : NormalizedPlugin R O C)
    (options : O) : LoadedNxPlugin R O C :=
  { name := plugin.name
    options := options
    createNodes := (rawCreateNodes plugin options).map
      (fun pc => (pc.1, wrapCreateNodes pc.2)) }

/-- C2: adapter error containment.  For every plugin with a createNodes
capability, if the underlying batched node-creation function throws an
error that is not an `AggregateCreateNodesError`, the adapter-wrapped
call rejects with an `AggregateCreateNodesError` whose per-file error
list is exactly `[[null, originalError]]` and whose partial-results list
is empty; if the thrown error already is an `AggregateCreateNodesError`,
it is re-thrown unchanged. -/
theorem adapter_error_containment {R O C : Type}
    (plugin : NormalizedPlugin R O C) (options : O) (pat : String)
    (inner : List String → C → Except (JsError R) (List (String × String × R)))
    (configFiles : List String) (context : C)
    (h : rawCreateNodes plugin options = some (pat, inner)) :
    (mkLoadedNxPlugin plugin options).createNodes =
      some (pat, wrapCreateNodes inner) ∧
    (∀ m, inner configFiles context = .error (.plain m) →
      wrapCreateNodes inner configFiles context =
        .error (.aggregate [(none, m)] [])) ∧
    (∀ errs results,
      inner configFiles context = .error (.aggregate errs results) →
      wrapCreateNodes inner configFiles context =
        .error (.aggregate errs results)) := by
  refine ⟨by simp [mkLoadedNxPlugin, h], ?_, ?_⟩
  · intro m hm
    simp [wrapCreateNodes, hm]
  · intro errs results he
    simp [wrapCreateNodes, he]

/-- A concrete plugin whose batched hook always throws a plain error. -/
def throwingPlugin : NormalizedPlugin Nat Nat Nat :=
  { name := "sample"
    createNodes := none
    createNodesV2 := some ("**/*", fun _ _ _ => .error (.plain "boom")) }

/-- The tagged inner function the constructor assembles for
`throwingPlugin`. -/
def throwingInner :
    List String → Nat → Except (JsError Nat) (List (String × String × Nat)) :=
  fun _ _ =>
    (Except.error (JsError.plain "boom")
        : Except (JsError Nat) (List (String × Nat))).map
      (fun result => result.map (fun r => ("sample", r.1, r.2)))

/-- Witness for `adapter_error_containment` at `throwingPlugin`. -/
theorem adapter_error_containment_witness :
    (mkLoadedNxPlugin throwingPlugin 0).createNodes =
      some ("**/*", wrapCreateNodes throwingInner) ∧
    (∀ m, throwingInner ["f1"] 0 = .error (.plain m) →
      wrapCreateNodes throwingInner ["f1"] 0 =
        .error (.aggregate [(none, m)] [])) ∧
    (∀ errs results,
      throwingInner ["f1"] 0 = .error (.aggregate errs results) →
      wrapCreateNodes throwingInner ["f1"] 0 =
        .error (.aggregate errs results)) :=
  adapter_error_containment throwingPlugin 0 "**/*" throwingInner ["f1"] 0 rfl

/-- C10: batched-hook precedence.  If a raw plugin defines both the legacy
single-file `createNodes` hook and the batched `createNodesV2` hook, the
`LoadedNxPlugin` node-creation capability is built exclusively from
`createNodesV2` (its pattern and its function, tagged with the plugin
name): any two plugins with the same name and the same `createNodesV2`
yield the same capability regardless of their legacy hooks, so the legacy
hook's pattern and function are never consulted. -/
theorem batched_hook_precedence {R O C : Type} (p q : NormalizedPlugin R O C)
    (options : O) (pat : String)
    (f : List String → O → C → Except (JsError R) (List (String × R)))
    (hname : p.name = q.name)
    (hp : p.createNodesV2 = some (pat, f))
    (hq : q.createNodesV2 = some (pat, f)) :
    rawCreateNodes p options =
      some (pat, fun configFiles context =>
        (f configFiles options context).map
          (fun result => result.map (fun r => (p.name, r.1, r.2)))) ∧
    rawCreateNodes p options = rawCreateNodes q options ∧
    (mkLoadedNxPlugin p options).createNodes =
      (mkLoadedNxPlugin q options).createNodes := by
  have h1 : rawCreateNodes p options =
      some (pat, fun configFiles context =>
        (f configFiles options context).map
          (fun result => result.map (fun r => (p.name, r.1, r.2)))) := by
    simp [rawCreateNodes, hp]
  have h2 : rawCreateNodes q options =
      some (pat, fun configFiles context =>
        (f configFiles options context).map
          (fun result => result.map (fun r => (q.name, r.1, r.2)))) := by
    simp [rawCreateNodes, hq]
  refine ⟨h1, ?_, ?_⟩
  · rw [h1, h2, hname]
  · simp only [mkLoadedNxPlugin]
    rw [h1, h2, hname]

/-- A batched hook shared by the two witness plugins. -/
def sharedV2fn :
    List String → Nat → Nat → Except (JsError Nat) (List (String × Nat)) :=
  fun configFiles _ _ => .ok (configFiles.map (fun file => (file, 1)))

/-- A concrete plugin defining both the legacy hook and the batched
hook. -/
def dualHookPlugin : NormalizedPlugin Nat Nat Nat :=
  { name := "dual"
    createNodes := some ("legacy-glob", fun _ _ _ => .ok 0)
    createNodesV2 := some ("v2-glob", sharedV2fn) }

/-- A concrete plugin defining only the batched hook. -/
def v2OnlyPlugin : NormalizedPlugin Nat Nat Nat :=
  { name := "dual"
    createNodes := none
    createNodesV2 := some ("v2-glob", sharedV2fn) }

/-- Witness for `batched_hook_precedence` at `dualHookPlugin` and
`v2OnlyPlugin`. -/
theorem batched_hook_precedence_witness :
    rawCreateNodes dualHookPlugin 0 =
      some ("v2-glob", fun configFiles context =>
        (sharedV2fn configFiles 0 context).map
          (fun result => result.map (fun r => (dualHookPlugin.name, r.1, r.2)))) ∧
    rawCreateNodes dualHookPlugin 0 = rawCreateNodes v2OnlyPlugin 0 ∧
    (mkLoadedNxPlugin dualHookPlugin 0).createNodes =
      (mkLoadedNxPlugin v2OnlyPlugin 0).createNodes :=
  batched_hook_precedence dualHookPlugin v2OnlyPlugin 0 "v2-glob" sharedV2fn
    rfl rfl rfl

/-- A concrete plugin whose batched hook returns an empty result list for
any input file list. -/
def emptyResultPlugin : NormalizedPlugin Nat Nat Nat :=
  { name := "empty"
    createNodes := none
    createNodesV2 := some ("**/*", fun _ _ _ => .ok []) }

/-- The tagged inner function the constructor assembles for
`emptyResultPlugin`. -/
def emptyInner :
    List String → Nat → Except (JsError Nat) (List (String × String × Nat)) :=
  fun _ _ =>
    (Except.ok ([] : List (String × Nat))
        : Except (JsError Nat) (List (String × Nat))).map
      (fun result => result.map (fun r => ("empty", r.1, r.2)))

/-- C6 counterexample: the adapter does not itself enforce one entry per
input file for a native batched-hook plugin.  For `emptyResultPlugin`,
whose `createNodesV2` hook returns the empty list, the adapter-wrapped
call over the one-file list `["f1"]` resolves with an empty sequence:
zero entries instead of one entry per input file. -/
theorem batched_result_shape_counterexample :
    (mkLoadedNxPlugin emptyResultPlugin 0).createNodes =
      some ("**/*", wrapCreateNodes emptyInner) ∧
    wrapCreateNodes emptyInner ["f1"] 0 =
      .ok ([] : List (String × String × Nat)) ∧
    ([] : List (String × String × Nat)).length ≠ ["f1"].length :=
  ⟨rfl, rfl, by decide⟩

/-- The generic batched node-creation contract of spec section 4.4,
specialized to the hook the adapter will actually invoke: a native
batched hook must resolve with one entry per input file, in input order;
a legacy single-file hook must resolve on every input file (the fan-out
then guarantees the batched shape). -/
def satisfiesBatchedContract {R O C : Type} (plugin : NormalizedPlugin R O C)
    (options : O) (configFiles : List String) (context : C) : Prop :=
  match plugin.createNodesV2 with
  | some pf => ∃ result, pf.2 configFiles options context = .ok result ∧
      result.map Prod.fst = configFiles
  | none =>
    match plugin.createNodes with
    | some pf => ∀ x ∈ configFiles, ∃ v, pf.2 x options context = .ok v
    | none => True

/-- Helper: the successful-result list of the per-file fan-out pairs the
input files in input order when every per-file invocation succeeds. -/
theorem filterMap_ok_fst {R O C : Type}
    (f : String → O → C → Except String R) (options : O) (context : C) :
    ∀ l : List String, (∀ x ∈ l, ∃ v, f x options context = Except.ok v) →
      (l.filterMap (fun file =>
        match f file options context with
        | .ok v => some (file, v)
        | .error _ => none)).map Prod.fst = l := by
  intro l
  induction l with
  | nil => intro _; rfl
  | cons a t ih =>
    intro h
    obtain ⟨v, hv⟩ := h a (List.mem_cons_self a t)
    simp only [List.filterMap_cons, hv, List.map_cons]
    exact congrArg (a :: ·) (ih (fun x hx => h x (List.mem_cons_of_mem a hx)))

/-- Helper: when every per-file invocation succeeds, `createNodesFromFiles`
resolves with one entry per input file, in input order. -/
theorem createNodesFromFiles_all_ok {R O C : Type}
    (f : String → O → C → Except String R) (configFiles : List String)
    (options : O) (context : C)
    (h : ∀ x ∈ configFiles, ∃ v, f x options context = Except.ok v) :
    ∃ rs, createNodesFromFiles f configFiles options context = .ok rs ∧
      rs.map Prod.fst = configFiles := by
  have herr : (configFiles.filterMap (fun file =>
      match f file options context with
      | .error e => some (some file, e)
      | .ok _ => none)) = ([] : List (Option String × String)) := by
    rw [List.filterMap_eq_nil_iff]
    intro a ha
    obtain ⟨v, hv⟩ := h a ha
    simp [hv]
  refine ⟨_, ?_, filterMap_ok_fst f options context configFiles h⟩
  simp only [createNodesFromFiles, herr, List.isEmpty_nil, if_true]

/-- Helper: tagging a per-file result list with the plugin name preserves
the one-entry-per-file pairing and stamps every entry with the name. -/
theorem tagged_shape {R : Type} (name : String) :
    ∀ (result : List (String × R)) (configFiles : List String),
      result.map Prod.fst = configFiles →
      (result.map (fun r => (name, r.1, r.2))).map (fun e => e.1) =
          configFiles.map (fun _ => name) ∧
        (result.map (fun r => (name, r.1, r.2))).map (fun e => e.2.1) =
          configFiles := by
  intro result
  induction result with
  | nil =>
    intro configFiles h
    rw [← h]
    exact ⟨rfl, rfl⟩
  | cons a t ih =>
    intro configFiles h
    cases configFiles with
    | nil => simp at h
    | cons c ct =>
      simp only [List.map_cons, List.cons.injEq] at h
      obtain ⟨h1, h2⟩ := h
      obtain ⟨ih1, ih2⟩ := ih ct h2
      exact ⟨by simp [ih1], by simp [h1, ih2]⟩

/-- C6 (amended): batched-result shape.  For every plugin with a
node-creation capability whose underlying hook satisfies the batched
contract of spec section 4.4 on the given input (always the case for a
legacy-normalized plugin whose single-file hook succeeds on every file),
the adapter-wrapped batched createNodes function resolves with exactly
one entry per input file, in input order, and every entry's first
component equals the invoking plugin's name. -/
theorem batched_result_shape {R O C : Type} (plugin : NormalizedPlugin R O C)
    (options : O) (configFiles : List String) (context : C) (pat : String)
    (g : List String → C → Except (JsError R) (List (String × String × R)))
    (hcap : (mkLoadedNxPlugin plugin options).createNodes = some (pat, g))
    (hcon : satisfiesBatchedContract plugin options configFiles context) :
    ∃ l, g configFiles context = .ok l ∧
      l.map (fun e => e.1) = configFiles.map (fun _ => plugin.name) ∧
      l.map (fun e => e.2.1) = configFiles := by
  simp only [mkLoadedNxPlugin, Option.map_eq_some'] at hcap
  obtain ⟨pc, hpc, heq⟩ := hcap
  injection heq with hpat hg
  subst hg
  rcases hv2 : plugin.createNodesV2 with - | ⟨pp, pf2⟩
  · rcases hv1 : plugin.createNodes with - | ⟨lp, lf⟩
    · rw [show rawCreateNodes plugin options = none by
        simp [rawCreateNodes, hv1, hv2]] at hpc
      cases hpc
    · have hraw : rawCreateNodes plugin options =
          some (lp, fun cf ctx =>
            (createNodesFromFiles lf cf options ctx).map
              (fun results => results.map (fun r => (plugin.name, r.1, r.2)))) := by
        simp [rawCreateNodes, hv1, hv2]
      rw [hraw] at hpc
      obtain rfl := (Option.some.inj hpc).symm
      simp only [satisfiesBatchedContract, hv2, hv1] at hcon
      obtain ⟨rs, hrs, hfst⟩ :=
        createNodesFromFiles_all_ok lf configFiles options context hcon
      obtain ⟨hone, htwo⟩ := tagged_shape plugin.name rs configFiles hfst
      exact ⟨rs.map (fun r => (plugin.name, r.1, r.2)),
        by simp [wrapCreateNodes, hrs, Except.map], hone, htwo⟩
  · have hraw : rawCreateNodes plugin options =
        some (pp, fun cf ctx =>
          (pf2 cf options ctx).map
            (fun result => result.map (fun r => (plugin.name, r.1, r.2)))) := by
      simp [rawCreateNodes, hv2]
    rw [hraw] at hpc
    obtain rfl := (Option.some.inj hpc).symm
    simp only [satisfiesBatchedContract, hv2] at hcon
    obtain ⟨result, hres, hfst⟩ := hcon
    obtain ⟨hone, htwo⟩ := tagged_shape plugin.name result configFiles hfst
    exact ⟨result.map (fun r => (plugin.name, r.1, r.2)),
      by simp [wrapCreateNodes, hres, Except.map], hone, htwo⟩

/-- A concrete legacy-hook plugin whose single-file hook always
succeeds. -/
def legacyPlugin : NormalizedPlugin Nat Nat Nat :=
  { name := "legacy"
    createNodes := some ("**/*", fun _ _ _ => .ok 7)
    createNodesV2 := none }

/-- The tagged inner function the constructor assembles for
`legacyPlugin`. -/
def legacyInner :
    List String → Nat → Except (JsError Nat) (List (String × String × Nat)) :=
  fun configFiles context =>
    (createNodesFromFiles (fun _ _ _ => Except.ok 7) configFiles 0 context).map
      (fun results => results.map (fun r => ("legacy", r.1, r.2)))

/-- Witness for `batched_result_shape` at `legacyPlugin` over three
files. -/
theorem batched_result_shape_witness :
    ∃ l, wrapCreateNodes legacyInner ["f1", "f2", "f3"] 0 = .ok l ∧
      l.map (fun e => e.1) =
        ["f1", "f2", "f3"].map (fun _ => legacyPlugin.name) ∧
      l.map (fun e => e.2.1) = ["f1", "f2", "f3"] :=
  batched_result_shape legacyPlugin 0 ["f1", "f2", "f3"] 0 "**/*"
    (wrapCreateNodes legacyInner) rfl
    (fun _ _ => ⟨7, rfl⟩)

/-- A plugin configuration as read from workspace configuration
(`PluginConfiguration` from `nx-json`): either a bare specifier string or
an expanded object with a specifier plus `options` and `include`/`exclude`
glob filters (spec section 3, PluginSpecification). -/
inductive PluginConfiguration where
  | str (specifier : String)
  | expanded (plugin : String) (options : Option String)
      (includeGlobs : Option (List String))
      (excludeGlobs : Option (List String))
deriving DecidableEq

/-- The embedding of `path.join` used to form the `__dirname`-relative
built-in plugin specifiers; normalization of `..` segments does not
matter for the order properties proved here, so segments are simply
joined. -/
def pathJoin (a b : String) : String := a ++ "/" ++ b

/-- `getDefaultPlugins` (internal-api.ts lines 207-216): the fixed,
conditionally-extended built-in tail.  The external
`shouldMergeAngularProjects(root, false)` workspace check is abstracted
as the boolean `shouldMergeAngular`; `dirname` stands for `__dirname`. -/
def getDefaultPlugins (dirname : String) (shouldMergeAngular : Bool) :
    List PluginConfiguration :=
  [.str (pathJoin dirname "../../plugins/js")] ++
    (if shouldMergeAngular then
      [.str (pathJoin dirname "../../adapter/angular-json")]
    else []) ++
    [.str (pathJoin dirname "../../plugins/package-json-workspaces"),
     .str (pathJoin dirname "../../plugins/project-json/build-nodes/project-json")]

/-- `normalizePlugins` (internal-api.ts lines 191-205): one fixed built-in
first, the user plugins in their given order, the default built-in tail
last.  The nullable `plugins` parameter (`plugins ??= []`) is embedded as
an `Option`. -/
def normalizePlugins (plugins : Option (List PluginConfiguration))
    (dirname : String) (shouldMergeAngular : Bool) :
    List PluginConfiguration :=
  [.str (pathJoin dirname
      "../../plugins/project-json/build-nodes/package-json-next-to-project-json")] ++
    plugins.getD [] ++ getDefaultPlugins dirname shouldMergeAngular

/-- C3: plugin resolution order.  For every list of user plugin
configurations, the normalized plugin list equals the fixed built-in
`package-json-next-to-project-json` first, followed by the user plugins
in their given order, followed by the default built-in tail appended
last: js plugin, then the angular-json adapter exactly when the
`shouldMergeAngularProjects` workspace condition holds, then
`package-json-workspaces`, then `project-json` — regardless of user
plugin count or order. -/
theorem plugin_resolution_order (plugins : Option (List PluginConfiguration))
    (dirname : String) (shouldMergeAngular : Bool) :
    (normalizePlugins plugins dirname shouldMergeAngular).take 1 =
      [.str (pathJoin dirname
        "../../plugins/project-json/build-nodes/package-json-next-to-project-json")] ∧
    ((normalizePlugins plugins dirname shouldMergeAngular).drop 1).take
        (plugins.getD []).length = plugins.getD [] ∧
    (normalizePlugins plugins dirname shouldMergeAngular).drop
        ((plugins.getD []).length + 1) =
      [.str (pathJoin dirname "../../plugins/js")] ++
        (if shouldMergeAngular then
          [.str (pathJoin dirname "../../adapter/angular-json")]
        else []) ++
        [.str (pathJoin dirname "../../plugins/package-json-workspaces"),
         .str (pathJoin dirname
           "../../plugins/project-json/build-nodes/project-json")] := by
  refine ⟨rfl, ?_, ?_⟩
  · show ((plugins.getD [] ++ getDefaultPlugins dirname shouldMergeAngular).take
      (plugins.getD []).length) = plugins.getD []
    exact List.take_left _ _
  · show ((plugins.getD [] ++ getDefaultPlugins dirname shouldMergeAngular).drop
      (plugins.getD []).length) = _
    rw [List.drop_left]
    rfl

/-- The embedding of `Promise.all` over already-dispatched per-plugin
loads: resolves with the list of values when every promise resolves, and
rejects as soon as one member rejects (the error kept is the first
rejection in list order; which error is kept is irrelevant to the
claims). -/
def promiseAll {E A : Type} : List (Except E A) → Except E (List A)
  | [] => .ok []
  | x :: xs =>
    match x with
    | .error e => .error e
    | .ok a => (promiseAll xs).map (fun l => a :: l)

/-- `loadNxPlugins` (internal-api.ts lines 147-189): normalize the
configured plugins, dispatch one load per normalized specification, and
await them all.  The run-wide loading method
(`loadNxPluginInIsolation` vs `loadNxPlugin`, chosen by the
`NX_ISOLATE_PLUGINS` policy flag) is abstracted as `load`; cleanup
functions and performance marks are elided.  `H` is the loaded-handle
type, `E` the load-error type. -/
def loadNxPlugins {E H : Type} (load : PluginConfiguration → Except E H)
    (plugins : Option (List PluginConfiguration)) (dirname : String)
    (shouldMergeAngular : Bool) : Except E (List H) :=
  promiseAll ((normalizePlugins plugins dirname shouldMergeAngular).map load)

/-- Helper: `promiseAll` rejects whenever one member rejects. -/
theorem promiseAll_error {E A : Type} (l : List (Except E A)) (e : E)
    (hmem : Except.error e ∈ l) : ∃ e', promiseAll l = .error e' := by
  induction l with
  | nil => cases hmem
  | cons x xs ih =>
    rcases List.mem_cons.mp hmem with h | h
    · exact ⟨e, by rw [← h]; rfl⟩
    · cases x with
      | error e0 => exact ⟨e0, rfl⟩
      | ok a =>
        obtain ⟨e', he'⟩ := ih h
        exact ⟨e', by simp [promiseAll, he', Except.map]⟩

/-- C5: fail-fast loading.  For every list of plugin specifications, if
any single normalized plugin's load rejects, the whole `loadNxPlugins`
call rejects; no partial list of successfully loaded plugins is returned
to the caller. -/
theorem load_fail_fast {E H : Type} (load : PluginConfiguration → Except E H)
    (plugins : Option (List PluginConfiguration)) (dirname : String)
    (shouldMergeAngular : Bool) (spec : PluginConfiguration) (e : E)
    (hmem : spec ∈ normalizePlugins plugins dirname shouldMergeAngular)
    (hfail : load spec = .error e) :
    (∃ e', loadNxPlugins load plugins dirname shouldMergeAngular =
      .error e') ∧
    ∀ hs : List H,
      loadNxPlugins load plugins dirname shouldMergeAngular ≠ .ok hs := by
  have hmem' : (Except.error e : Except E H) ∈
      (normalizePlugins plugins dirname shouldMergeAngular).map load := by
    rw [← hfail]
    exact List.mem_map_of_mem load hmem
  obtain ⟨e', he'⟩ := promiseAll_error _ e hmem'
  have hl : loadNxPlugins load plugins dirname shouldMergeAngular =
      .error e' := he'
  refine ⟨⟨e', hl⟩, fun hs hok => ?_⟩
  rw [hl] at hok
  cases hok

/-- A concrete loading method failing on one user plugin. -/
def failingLoad : PluginConfiguration → Except String Nat :=
  fun p => if p = .str "user-plugin" then .error "load failure" else .ok 0

/-- Witness for `load_fail_fast` at `failingLoad` with one user plugin. -/
theorem load_fail_fast_witness :
    (∃ e', loadNxPlugins failingLoad (some [.str "user-plugin"]) "DIR" false =
      .error e') ∧
    ∀ hs : List Nat,
      loadNxPlugins failingLoad (some [.str "user-plugin"]) "DIR" false ≠
        .ok hs :=
  load_fail_fast failingLoad (some [.str "user-plugin"]) "DIR" false
    (.str "user-plugin") "load failure" (by decide) rfl

/-- The concurrent fill loop of `loadNxPlugins` (internal-api.ts lines
160-169): `result = new Array(plugins.length)` is filled by
`result[idx] = loadedPluginPromise` as the per-plugin loads complete.
The JavaScript array is embedded as a function from indices to optional
entries (`none` = still-empty slot), and the nondeterministic completion
order of the concurrent loads is the explicit index list `order`. -/
def scheduleLoads {P A : Type} (load : P → A) (normalized : List P)
    (order : List Nat) : Nat → Option A :=
  order.foldl
    (fun result idx => fun j =>
      if j = idx then (normalized.get? idx).map load else result j)
    (fun _ => none)

/-- Helper: after the fill loop runs over `order`, a slot holds the load
of its own normalized specification if its index was processed, and its
initial value otherwise. -/
theorem scheduleLoads_foldl {P A : Type} (load : P → A) (normalized : List P) :
    ∀ (order : List Nat) (init : Nat → Option A) (i : Nat),
      (order.foldl
        (fun result idx => fun j =>
          if j = idx then (normalized.get? idx).map load else result j)
        init) i =
      if i ∈ order then (normalized.get? i).map load else init i := by
  intro order
  induction order with
  | nil => intro init i; simp
  | cons a t ih =>
    intro init i
    rw [List.foldl_cons, ih]
    by_cases hit : i ∈ t
    · simp [hit, List.mem_cons]
    · by_cases hia : i = a
      · subst hia; simp [hit]
      · simp [hit, hia, List.mem_cons]

/-- C9: load result order preservation.  The slot array filled by the
concurrent per-plugin loads is indexed positionally by the normalized
specification list — slot `i` holds the loaded plugin of the `i`-th
normalized specification — for every completion order that processes
each index once, so the returned order is the resolution order and is
independent of the order in which the concurrent loads complete. -/
theorem load_result_order {P A : Type} (load : P → A) (normalized : List P)
    (order : List Nat) (i : Nat)
    (hperm : order.Perm (List.range normalized.length))
    (hi : i < normalized.length) :
    scheduleLoads load normalized order i = (normalized.get? i).map load ∧
    ∀ order', order'.Perm (List.range normalized.length) →
      scheduleLoads load normalized order' i =
        scheduleLoads load normalized order i := by
  have key : ∀ o : List Nat, o.Perm (List.range normalized.length) →
      scheduleLoads load normalized o i = (normalized.get? i).map load := by
    intro o ho
    have hmem : i ∈ o := ho.mem_iff.mpr (List.mem_range.mpr hi)
    rw [scheduleLoads, scheduleLoads_foldl, if_pos hmem]
  exact ⟨key order hperm,
    fun order' hperm' => (key order' hperm').trans (key order hperm).symm⟩

/-- Witness for `load_result_order` at a three-element specification list
and the completion order `[2, 0, 1]`. -/
theorem load_result_order_witness :
    scheduleLoads (fun n => n + 1) [10, 20, 30] [2, 0, 1] 1 =
      (([10, 20, 30] : List Nat).get? 1).map (fun n => n + 1) ∧
    ∀ order', order'.Perm (List.range ([10, 20, 30] : List Nat).length) →
      scheduleLoads (fun n => n + 1) [10, 20, 30] order' 1 =
        scheduleLoads (fun n => n + 1) [10, 20, 30] [2, 0, 1] 1 :=
  load_result_order (fun n => n + 1) [10, 20, 30] [2, 0, 1] 1 (by decide)
    (by decide)

/-! ### Part 3: prompt-message selection (`PromptMessages.getPrompt`) -/

/-- One selectable choice of a prompt message. -/
structure PromptChoice where
  value : String
  name : String
deriving DecidableEq

/-- The keys of the `messageOptions` record. -/
inductive MessageKey where
  | setupCI
  | setupNxCloud
deriving DecidableEq

/-- One prompt-message variant (the `MessageData` interface). -/
structure MessageData where
  code : String
  message : String
  initial : Nat
  choices : List PromptChoice
  footer : String
  hint : Option String
  fallback : Option (String × MessageKey)
deriving DecidableEq

/-- The `messageOptions` record: the message variants selectable for each
key. -/
def messageOptions : MessageKey → List MessageData
  | .setupCI =>
    [{ code := "which-ci-provider"
       message := "Which CI provider would you like to use?"
       initial := 0
       choices :=
         [{ value := "github", name := "GitHub Actions" },
          { value := "circleci", name := "Circle CI" },
          { value := "gitlab", name := "Gitlab" },
          { value := "azure", name := "Azure DevOps" },
          { value := "bitbucket-pipelines", name := "BitBucket Pipelines" },
          { value := "skip", name := "\nDo it later" }]
       footer := "\nRemote caching, task distribution, and test splitting are provided by Nx Cloud. Read more at https://nx.dev/ci"
       hint := none
       fallback := some ("skip", .setupNxCloud) },
     { code := "set-up-ci"
       message := "Set up CI with caching, distribution and test deflaking"
       initial := 0
       choices :=
         [{ value := "github", name := "GitHub Actions" },
          { value := "circleci", name := "CircleCI" },
          { value := "gitlab", name := "Gitlab" },
          { value := "azure", name := "Azure DevOps" },
          { value := "bitbucket-pipelines", name := "BitBucket Pipelines" },
          { value := "skip", name := "\nDo it later" }]
       footer := "\nRemote caching, task distribution, and test splitting are provided by Nx Cloud. Read more at https://nx.dev/ci"
       hint := none
       fallback := some ("skip", .setupNxCloud) }]
  | .setupNxCloud =>
    [{ code := "enable-caching"
       message := "Would you like remote caching to make your build faster?"
       initial := 0
       choices :=
         [{ value := "yes", name := "Yes" },
          { value := "skip", name := "Skip for now" }]
       footer := "\nRead more about remote caching at https://nx.dev/ci/features/remote-cache"
       hint := some "\n(it\x27s free and can be disabled any time)"
       fallback := none }]

/-- The out-of-range default for indexing `messageOptions[key][i]`
(JavaScript would yield `undefined`; every reachable index is in
range). -/
def undefinedMessage : MessageData :=
  { code := "", message := "", initial := 0, choices := [], footer := ""
    hint := none, fallback := none }

/-- `PromptMessages.getPrompt`: if no variant index was selected yet for
`key`, select index 0 when the `NX_GENERATE_DOCS_PROCESS` flag is
`'true'` (`docsFlag`), and otherwise select
`Math.floor(Math.random() * messageOptions[key].length)` — embedded as
`rand % length` for an arbitrary oracle value `rand`; the selection is
memoized in `selectedMessages` and the selected variant returned. -/
def getPrompt (docsFlag : Bool) (rand : Nat)
    (selectedMessages : MessageKey → Option Nat) (key : MessageKey) :
    MessageData × (MessageKey → Option Nat) :=
  match selectedMessages key with
  | some i => ((messageOptions key).getD i undefinedMessage, selectedMessages)
  | none =>
    let i := if docsFlag then 0 else rand % (messageOptions key).length
    ((messageOptions key).getD i undefinedMessage,
      fun k => if k = key then some i else selectedMessages k)

/-- States in which every memoized selection is index 0 (the invariant
maintained by every `getPrompt` call in documentation-generation mode,
starting from the empty `selectedMessages` state of a fresh
`PromptMessages`). -/
def allZeroSelections (selectedMessages : MessageKey → Option Nat) : Prop :=
  ∀ k i, selectedMessages k = some i → i = 0

/-- C8: deterministic prompt selection in documentation-generation mode.
When the `NX_GENERATE_DOCS_PROCESS` flag is set, `getPrompt` always
selects index 0 of the message options for the requested key — whatever
the random oracle yields — and preserves the all-zero selection state, so
any two runs with the flag set pick identical (non-random) prompt
messages for every key. -/
theorem docs_mode_deterministic (rand rand' : Nat)
    (selectedMessages selectedMessages' : MessageKey → Option Nat)
    (key : MessageKey)
    (h : allZeroSelections selectedMessages)
    (h' : allZeroSelections selectedMessages') :
    (getPrompt true rand selectedMessages key).1 =
      (messageOptions key).getD 0 undefinedMessage ∧
    allZeroSelections (getPrompt true rand selectedMessages key).2 ∧
    (getPrompt true rand selectedMessages key).1 =
      (getPrompt true rand' selectedMessages' key).1 := by
  have main : ∀ (r : Nat) (s : MessageKey → Option Nat),
      allZeroSelections s →
      (getPrompt true r s key).1 =
        (messageOptions key).getD 0 undefinedMessage ∧
      allZeroSelections (getPrompt true r s key).2 := by
    intro r s hs
    unfold getPrompt
    cases hsel : s key with
    | some i =>
      rw [hs key i hsel]
      exact ⟨rfl, fun k j hkj => hs k j (by simpa using hkj)⟩
    | none =>
      refine ⟨rfl, fun k j hkj => ?_⟩
      simp only at hkj
      by_cases hk : k = key
      · simp [hk] at hkj
        exact hkj.symm
      · exact hs k j (by simpa [hk] using hkj)
  obtain ⟨h1, h2⟩ := main rand selectedMessages h
  obtain ⟨h1', _⟩ := main rand' selectedMessages' h'
  exact ⟨h1, h2, h1.trans h1'.symm⟩

/-- Witness for `docs_mode_deterministic` at fresh selection states and
two different random-oracle values. -/
theorem docs_mode_deterministic_witness :
    (getPrompt true 5 (fun _ => none) MessageKey.setupCI).1 =
      (messageOptions MessageKey.setupCI).getD 0 undefinedMessage ∧
    allZeroSelections (getPrompt true 5 (fun _ => none) MessageKey.setupCI).2 ∧
    (getPrompt true 5 (fun _ => none) MessageKey.setupCI).1 =
      (getPrompt true 99 (fun _ => none) MessageKey.setupCI).1 :=
  docs_mode_deterministic 5 99 (fun _ => none) (fun _ => none)
    MessageKey.setupCI (fun _ _ h => by cases h) (fun _ _ h => by cases h)
